import Mathlib

/-!
Shallow embedding of the AtividadePAM2 repository: an Express CRUD backend
(`src/BackEnd/index.js`) over a `clientes` table and a React Native client
(`src/FrontEnd/app/index.tsx`) that lists, creates, edits and deletes those
records.  Handlers are modelled as pure functions from the relevant inputs
(request data, the result of the storage call, the fetch outcome) to the
response or to the resulting component state plus the list of observable
effects (requests issued, alerts shown, re-fetches triggered).
-/

/-- A persisted client record (the `Cliente` entity). -/
structure Cliente where
  id : Nat
  Nome : String
  Idade : Int
  UF : String
deriving DecidableEq, Repr

/-- The `{Nome, Idade, UF}` body a create/update request carries. -/
structure ClienteInput where
  Nome : String
  Idade : Int
  UF : String
deriving DecidableEq, Repr

namespace BackEnd

/-- JSON bodies the backend responds with. -/
inductive RespBody where
  | msg (s : String)
  | err (s : String)
  | data (l : List Cliente)
  | single (c : Option Cliente)
deriving DecidableEq, Repr

/-- An HTTP response: status code plus JSON body. -/
structure Response where
  status : Nat
  body : RespBody
deriving DecidableEq, Repr

/-- `app.get("/", ...)`: list all clients; `res.json(data)` responds 200,
a thrown storage error responds 500 with a static message. -/
def getRootHandler (r : Except String (List Cliente)) : Response :=
  match r with
  | .ok data => ⟨200, .data data⟩
  | .error _ => ⟨500, .err "Erro ao buscar clientes"⟩

/-- `app.get("/clientes/:id", ...)`: returns whatever the single-row query
yields (no explicit not-found branch); 500 on a thrown storage error. -/
def getByIdHandler (r : Except String (Option Cliente)) : Response :=
  match r with
  | .ok c => ⟨200, .single c⟩
  | .error _ => ⟨500, .err "Erro ao buscar cliente"⟩

/-- `app.post("/clientes", ...)`: destructures `{Nome, Idade, UF}`, forwards
them to `insertCliente`, responds 201 on success, 500 on a thrown error. -/
def postHandler (body : ClienteInput) (r : Except String Unit) : Response :=
  match r with
  | .ok _ => ⟨201, .msg "Cliente criado com sucesso"⟩
  | .error _ => ⟨500, .err "Erro ao criar cliente"⟩

/-- `app.put("/clientes/:id", ...)`: forwards `{Nome, Idade, UF}` and the id
to `updateCliente`, responds 200 on success, 500 on a thrown error; the
number of affected rows is never inspected. -/
def putHandler (body : ClienteInput) (i : Nat) (r : Except String Unit) : Response :=
  match r with
  | .ok _ => ⟨200, .msg "Cliente atualizado com sucesso"⟩
  | .error _ => ⟨500, .err "Erro ao atualizar cliente"⟩

/-- `app.delete("/clientes/:id", ...)`: 200 when `deleteById` reports a
removed row, 404 when it reports none, 500 on a thrown error. -/
def deleteHandler (r : Except String Bool) : Response :=
  match r with
  | .ok true => ⟨200, .msg "Cliente deletado com sucesso"⟩
  | .ok false => ⟨404, .err "Cliente não encontrado"⟩
  | .error _ => ⟨500, .err "Erro ao deletar cliente"⟩

/-- Modelled from the spec: `deleteById` in `BackEnd/conf/autenticacao` is not
under `src/`; per the spec's delete contract ("if a matching record existed
and was removed, returns a success indicator; if no record matched, returns a
not-found indicator") it removes the rows whose id matches and reports
whether any row matched. -/
def deleteById (db : List Cliente) (i : Nat) : List Cliente × Bool :=
  (db.filter (fun c => c.id ≠ i), db.any (fun c => c.id = i))

/-- Modelled from the spec: `updateCliente` in `BackEnd/conf/autenticacao` is
not under `src/`; per the spec's update contract it replaces the three fields
of the rows whose id matches (a parameterized UPDATE matching no row succeeds
and changes nothing). -/
def updateCliente (db : List Cliente) (nome : String) (idade : Int) (uf : String)
    (i : Nat) : List Cliente :=
  db.map (fun c => if c.id = i then { c with Nome := nome, Idade := idade, UF := uf } else c)

end BackEnd

namespace FrontEnd

/-! ### JavaScript `parseInt` (radix unspecified)

`validateForm` and the submission handlers call `parseInt(formData.Idade)`.
JS semantics: skip leading whitespace, read an optional sign, detect a
`0x`/`0X` prefix (hexadecimal, otherwise decimal), then consume the longest
prefix of digits valid in that radix; `NaN` (here `none`) when no digit was
consumed. -/

/-- The numeric value of `c` as a digit, when it is a valid digit in `radix`
(`0-9`, then letters for values 10 and up, as in JS `parseInt`). -/
def digitVal? (radix : Nat) (c : Char) : Option Nat :=
  if '0' ≤ c ∧ c ≤ '9' then
    if c.toNat - '0'.toNat < radix then some (c.toNat - '0'.toNat) else none
  else if 'a' ≤ c ∧ c ≤ 'z' then
    if c.toNat - 'a'.toNat + 10 < radix then some (c.toNat - 'a'.toNat + 10) else none
  else if 'A' ≤ c ∧ c ≤ 'Z' then
    if c.toNat - 'A'.toNat + 10 < radix then some (c.toNat - 'A'.toNat + 10) else none
  else none

/-- Consume the longest prefix of digits valid in `radix`, accumulating the
value; `acc` is `none` while no digit has been consumed. -/
def parseDigits (radix : Nat) : List Char → Option Nat → Option Nat
  | [], acc => acc
  | c :: cs, acc =>
    match digitVal? radix c with
    | some d => parseDigits radix cs (some (acc.getD 0 * radix + d))
    | none => acc

/-- Read the optional leading sign. -/
def stripSign : List Char → Int × List Char
  | '-' :: rest => (-1, rest)
  | '+' :: rest => (1, rest)
  | cs => (1, cs)

/-- Detect the `0x`/`0X` prefix: hexadecimal when present, decimal
otherwise. -/
def stripHexMark : List Char → Nat × List Char
  | '0' :: 'x' :: rest => (16, rest)
  | '0' :: 'X' :: rest => (16, rest)
  | cs => (10, cs)

/-- JS `parseInt(s)` with no radix argument; `none` models `NaN`. -/
def jsParseInt (s : String) : Option Int :=
  let cs := s.data.dropWhile Char.isWhitespace
  let (sign, cs₁) := stripSign cs
  let (radix, cs₂) := stripHexMark cs₁
  match parseDigits radix cs₂ none with
  | none => none
  | some n => some (sign * n)

/-- JS `String.prototype.trim()`: strip leading and trailing whitespace. -/
def jsTrim (s : String) : String :=
  ⟨((s.data.dropWhile Char.isWhitespace).reverse.dropWhile Char.isWhitespace).reverse⟩

/-- The unconditional full uppercase expansions of Unicode
`SpecialCasing.txt` (code point → code points), the mappings through which
`toUpperCase` can lengthen a string: `ß → SS`, `ﬁ → FI`, the Greek
iota-subscript and breathing-mark combinations, the Armenian ligatures. -/
def specialUpper : List (Nat × List Nat) :=
  [ (0xDF, [0x53, 0x53]), (0x149, [0x2BC, 0x4E]), (0x1F0, [0x4A, 0x30C]),
    (0x390, [0x399, 0x308, 0x301]), (0x3B0, [0x3A5, 0x308, 0x301]),
    (0x587, [0x535, 0x552]), (0x1E96, [0x48, 0x331]), (0x1E97, [0x54, 0x308]),
    (0x1E98, [0x57, 0x30A]), (0x1E99, [0x59, 0x30A]), (0x1E9A, [0x41, 0x2BE]),
    (0x1F50, [0x3A5, 0x313]), (0x1F52, [0x3A5, 0x313, 0x300]),
    (0x1F54, [0x3A5, 0x313, 0x301]), (0x1F56, [0x3A5, 0x313, 0x342]),
    (0x1FB2, [0x1FBA, 0x399]), (0x1FB3, [0x391, 0x399]), (0x1FB4, [0x386, 0x399]),
    (0x1FB6, [0x391, 0x342]), (0x1FB7, [0x391, 0x342, 0x399]), (0x1FBC, [0x391, 0x399]),
    (0x1FC2, [0x1FCA, 0x399]), (0x1FC3, [0x397, 0x399]), (0x1FC4, [0x389, 0x399]),
    (0x1FC6, [0x397, 0x342]), (0x1FC7, [0x397, 0x342, 0x399]), (0x1FCC, [0x397, 0x399]),
    (0x1FD2, [0x399, 0x308, 0x300]), (0x1FD3, [0x399, 0x308, 0x301]),
    (0x1FD6, [0x399, 0x342]), (0x1FD7, [0x399, 0x308, 0x342]),
    (0x1FE2, [0x3A5, 0x308, 0x300]), (0x1FE3, [0x3A5, 0x308, 0x301]),
    (0x1FE4, [0x3A1, 0x313]), (0x1FE6, [0x3A5, 0x342]), (0x1FE7, [0x3A5, 0x308, 0x342]),
    (0x1FF2, [0x1FFA, 0x399]), (0x1FF3, [0x3A9, 0x399]), (0x1FF4, [0x38F, 0x399]),
    (0x1FF6, [0x3A9, 0x342]), (0x1FF7, [0x3A9, 0x342, 0x399]), (0x1FFC, [0x3A9, 0x399]),
    (0xFB00, [0x46, 0x46]), (0xFB01, [0x46, 0x49]), (0xFB02, [0x46, 0x4C]),
    (0xFB03, [0x46, 0x46, 0x49]), (0xFB04, [0x46, 0x46, 0x4C]),
    (0xFB05, [0x53, 0x54]), (0xFB06, [0x53, 0x54]),
    (0xFB13, [0x544, 0x546]), (0xFB14, [0x544, 0x535]), (0xFB15, [0x544, 0x53B]),
    (0xFB16, [0x54E, 0x546]), (0xFB17, [0x544, 0x53D]) ]

/-- Unicode full uppercase conversion of one code point, as JS
`String.prototype.toUpperCase` applies it.  ASCII (which has no special
casing) maps `a-z` up and keeps the rest; beyond ASCII the unconditional
`SpecialCasing.txt` expansions apply first (`specialUpper` plus the
`U+1F80-U+1FAF` blocks, all of which append `U+0399`), then the simple
uppercase mapping, embedded here for the Latin-1 range (`à-þ`, `µ`, `ÿ`);
remaining code points are kept unchanged, and no statement below relies on
them. -/
def jsCharToUpper (c : Char) : List Char :=
  let n := c.toNat
  if n ≤ 0x7F then
    if 0x61 ≤ n ∧ n ≤ 0x7A then [Char.ofNat (n - 0x20)] else [c]
  else
    match specialUpper.lookup n with
    | some ns => ns.map Char.ofNat
    | none =>
      if 0x1F80 ≤ n ∧ n ≤ 0x1F87 then [Char.ofNat (n - 0x78), Char.ofNat 0x399]
      else if 0x1F88 ≤ n ∧ n ≤ 0x1F8F then [Char.ofNat (n - 0x80), Char.ofNat 0x399]
      else if 0x1F90 ≤ n ∧ n ≤ 0x1F97 then [Char.ofNat (n - 0x68), Char.ofNat 0x399]
      else if 0x1F98 ≤ n ∧ n ≤ 0x1F9F then [Char.ofNat (n - 0x70), Char.ofNat 0x399]
      else if 0x1FA0 ≤ n ∧ n ≤ 0x1FA7 then [Char.ofNat (n - 0x38), Char.ofNat 0x399]
      else if 0x1FA8 ≤ n ∧ n ≤ 0x1FAF then [Char.ofNat (n - 0x40), Char.ofNat 0x399]
      else if n = 0xB5 then [Char.ofNat 0x39C]
      else if (0xE0 ≤ n ∧ n ≤ 0xF6) ∨ (0xF8 ≤ n ∧ n ≤ 0xFE) then [Char.ofNat (n - 0x20)]
      else if n = 0xFF then [Char.ofNat 0x178]
      else [c]

/-- JS `String.prototype.toUpperCase()`: Unicode full case conversion,
character by character; an expanding mapping makes the result longer than the
input. -/
def jsToUpperCase (s : String) : String :=
  ⟨s.data.flatMap jsCharToUpper⟩

/-! ### Form state and validation -/

/-- The form's text fields (`FormData` in `index.tsx`): all three are raw
strings as typed. -/
structure FormData where
  Nome : String
  Idade : String
  UF : String
deriving DecidableEq, Repr

/-- `validateForm` in `index.tsx`, with the alert message it shows on
rejection: `some msg` when the form is rejected, `none` when it passes.
The checks run in source order: blank name, blank age, unparseable or
out-of-range age, blank UF, UF length (of the untrimmed field) ≠ 2. -/
def validateFormResult (f : FormData) : Option String :=
  if jsTrim f.Nome = "" then some "Nome é obrigatório"
  else if jsTrim f.Idade = "" then some "Idade é obrigatória"
  else
    match jsParseInt f.Idade with
    | none => some "Digite uma idade válida (0-150)"
    | some idade =>
      if idade < 0 ∨ idade > 150 then some "Digite uma idade válida (0-150)"
      else if jsTrim f.UF = "" then some "UF é obrigatória"
      else if f.UF.length ≠ 2 then some "UF deve ter exatamente 2 caracteres"
      else none

/-- The boolean `validateForm` returns: `true` exactly when no check fired. -/
def validateForm (f : FormData) : Bool :=
  (validateFormResult f).isNone

/-- The age portion of `validateForm`: blank after trimming is rejected, then
`parseInt` must yield a value in [0, 150]. -/
def validateIdade (s : String) : Bool :=
  if jsTrim s = "" then false
  else
    match jsParseInt s with
    | none => false
    | some idade => if idade < 0 ∨ idade > 150 then false else true

/-- The JSON body `createCliente`/`updateCliente` submit: trimmed name,
`parseInt` of the age field, trimmed upper-cased UF. -/
structure SubmitBody where
  Nome : String
  Idade : Option Int
  UF : String
deriving DecidableEq, Repr

/-- Builds the submitted body from the form state, as in the
`JSON.stringify({...})` argument of both submission handlers. -/
def submittedBody (f : FormData) : SubmitBody :=
  { Nome := jsTrim f.Nome
    Idade := jsParseInt f.Idade
    UF := jsToUpperCase (jsTrim f.UF) }

/-- `true` iff `c` is an uppercase ASCII letter. -/
def isUpperAlpha (c : Char) : Bool :=
  'A' ≤ c && c ≤ 'Z'

/-- `pat` is a prefix of the second list. -/
def listStartsWith : List Char → List Char → Bool
  | [], _ => true
  | _ :: _, [] => false
  | a :: as, b :: bs => a = b && listStartsWith as bs

/-- `pat` occurs contiguously inside the second list. -/
def listContains (pat : List Char) : List Char → Bool
  | [] => listStartsWith pat []
  | b :: bs => listStartsWith pat (b :: bs) || listContains pat bs

/-- JS `String.prototype.includes`. -/
def strIncludes (s pat : String) : Bool :=
  listContains pat.data s.data

/-- Follows the spec's words for the age rule ("must parse as an integer in
[0, 150]"): the whole input is an optionally-signed decimal integer whose
value lies in [0, 150].  Used only to compare the spec's reading with the
code's `parseInt`-based check. -/
def specAgeAccepts (s : String) : Bool :=
  let digits :=
    match s.data with
    | '-' :: rest => rest
    | cs => cs
  let sign : Int := if s.data.headD ' ' = '-' then -1 else 1
  if digits ≠ [] ∧ digits.all (fun c => '0' ≤ c && c ≤ '9') then
    let n : Int := sign * (digits.foldl (fun acc c => acc * 10 + (c.toNat - '0'.toNat)) 0)
    decide (0 ≤ n ∧ n ≤ 150)
  else false

/-! ### Component state and effect traces

Each async handler of the component is modelled as a pure function from the
pre-state and the outcome of its `fetch` call to the post-state and the
chronological list of observable effects. -/

/-- The component state relevant to the handlers (`useState` hooks). -/
structure AppState where
  clientes : List Cliente
  modalVisible : Bool
  deleteModalVisible : Bool
  editingCliente : Option Cliente
  deletingCliente : Option Cliente
  formData : FormData
deriving DecidableEq, Repr

/-- Observable effects of a handler run, in chronological order. -/
inductive Eff where
  | alert (title msg : String)
  | httpRequest (method path : String) (timeoutMs : Nat)
  | refetch
deriving DecidableEq, Repr

/-- Whether an effect is an outgoing network request. -/
def Eff.isRequest : Eff → Bool
  | .httpRequest _ _ _ => true
  | _ => false

/-- Outcome of an awaited `fetch`: a response (status plus whether the JSON
body is an array of clients), a timeout abort, or a thrown error carrying a
message. -/
inductive FetchOutcome where
  | ok (status : Nat) (data : Option (List Cliente))
  | timeout
  | failure (msg : String)
deriving DecidableEq, Repr

/-- `response.ok`: status in the 2xx range. -/
def statusOk (status : Nat) : Bool :=
  200 ≤ status && status < 300

/-- The empty form `resetForm`/`openCreateModal` install. -/
def clearedForm : FormData :=
  ⟨"", "", ""⟩

/-- `resetForm`: clear the fields, drop the edited record, hide the form
modal. -/
def resetForm (st : AppState) : AppState :=
  { st with formData := clearedForm, editingCliente := none, modalVisible := false }

/-- `closeDeleteModal`: drop the record pending deletion and hide the
confirmation modal. -/
def closeDeleteModal (st : AppState) : AppState :=
  { st with deletingCliente := none, deleteModalVisible := false }

/-- `fetchClientes`: GET `/` with a 10-second `AbortSignal.timeout`; a non-ok
status is thrown and lands in the generic catch branch, a `TimeoutError` gets
a timeout-specific alert, an error whose message contains
"Network request failed" gets a connection alert, anything else a generic
`Falha na conexão` alert. -/
def fetchClientes (st : AppState) (o : FetchOutcome) : AppState × List Eff :=
  let req := Eff.httpRequest "GET" "/" 10000
  match o with
  | .ok status d =>
    if statusOk status then
      ({ st with clientes := d.getD [] }, [req])
    else
      (st, [req, .alert "Erro" ("Falha na conexão: HTTP error! status: " ++ toString status)])
  | .timeout =>
    (st, [req, .alert "Erro" "Timeout: Verifique se a API está rodando e o IP está correto."])
  | .failure m =>
    if strIncludes m "Network request failed" then
      (st, [req, .alert "Erro de Conexão" "Não foi possível conectar com a API."])
    else
      (st, [req, .alert "Erro" ("Falha na conexão: " ++ m)])

/-- `createCliente`: bail out (with only the validation alert) when
`validateForm` fails; otherwise POST the submitted body with a 10-second
timeout; on `response.ok` alert success, reset the form and re-fetch; on a
non-ok response alert a generic failure; on a thrown error (timeout
included — the catch does not distinguish) alert a connection failure. -/
def createCliente (st : AppState) (o : FetchOutcome) : AppState × List Eff :=
  match validateFormResult st.formData with
  | some msg => (st, [.alert "Erro" msg])
  | none =>
    let req := Eff.httpRequest "POST" "/clientes" 10000
    match o with
    | .ok status _ =>
      if statusOk status then
        (resetForm st, [req, .alert "Sucesso" "Cliente criado com sucesso!", .refetch])
      else
        (st, [req, .alert "Erro" "Não foi possível criar o cliente"])
    | .timeout =>
      (st, [req, .alert "Erro" "Erro de conexão. Verifique se a API está funcionando."])
    | .failure _ =>
      (st, [req, .alert "Erro" "Erro de conexão. Verifique se a API está funcionando."])

/-- `updateCliente`: returns immediately when no record is being edited
(short-circuit before validation) or when `validateForm` fails; otherwise PUT
the submitted body to `/clientes/:id`; branches as in `createCliente`. -/
def updateCliente (st : AppState) (o : FetchOutcome) : AppState × List Eff :=
  match st.editingCliente with
  | none => (st, [])
  | some ec =>
    match validateFormResult st.formData with
    | some msg => (st, [.alert "Erro" msg])
    | none =>
      let req := Eff.httpRequest "PUT" ("/clientes/" ++ toString ec.id) 10000
      match o with
      | .ok status _ =>
        if statusOk status then
          (resetForm st, [req, .alert "Sucesso" "Cliente atualizado com sucesso!", .refetch])
        else
          (st, [req, .alert "Erro" "Não foi possível atualizar o cliente"])
      | .timeout =>
        (st, [req, .alert "Erro" "Erro de conexão. Verifique se a API está funcionando."])
      | .failure _ =>
        (st, [req, .alert "Erro" "Erro de conexão. Verifique se a API está funcionando."])

/-- `deleteCliente`: returns immediately when no record is pending deletion;
otherwise DELETE `/clientes/:id` under an 8-second `AbortController` timer;
every branch after the request — ok, non-ok, abort, other error — calls
`closeDeleteModal`; an `AbortError` (the timer fired) gets its own alert,
other thrown errors a connection alert. -/
def deleteCliente (st : AppState) (o : FetchOutcome) : AppState × List Eff :=
  match st.deletingCliente with
  | none => (st, [])
  | some dc =>
    let req := Eff.httpRequest "DELETE" ("/clientes/" ++ toString dc.id) 8000
    match o with
    | .ok status _ =>
      if statusOk status then
        (closeDeleteModal st, [req, .alert "Sucesso" "Cliente deletado com sucesso!", .refetch])
      else
        (closeDeleteModal st, [req, .alert "Erro" "Não foi possível deletar o cliente"])
    | .timeout =>
      (closeDeleteModal st, [req, .alert "Timeout" "A operação demorou muito para responder."])
    | .failure _ =>
      (closeDeleteModal st, [req, .alert "Erro" "Erro de conexão. Verifique se a API está funcionando."])

end FrontEnd

/-! ## Helper lemmas -/

/-- After `deleteById` removed the rows matching `i`, no row matching `i`
remains in the store. -/
theorem deleteById_removes_id (db : List Cliente) (i : Nat) :
    ((BackEnd.deleteById db i).1.any fun c => c.id = i) = false := by
  simp only [BackEnd.deleteById, List.any_eq_false, List.mem_filter]
  intro c hc
  simpa using hc.2

/-! ## Claim theorems -/

/-- C3: the delete handler answers 200 with the success message when the
storage delete reports a removed row, 404 when it reports none, and 500 with
the generic payload when the storage call throws; hence on a store containing
the id, deleting it twice answers 200 then 404. -/
theorem delete_response_contract (r : Except String Bool) (db : List Cliente) (i : Nat)
    (h : (BackEnd.deleteById db i).2 = true) :
    (r = .ok true → BackEnd.deleteHandler r = ⟨200, .msg "Cliente deletado com sucesso"⟩) ∧
    (r = .ok false → BackEnd.deleteHandler r = ⟨404, .err "Cliente não encontrado"⟩) ∧
    (∀ e, r = .error e → BackEnd.deleteHandler r = ⟨500, .err "Erro ao deletar cliente"⟩) ∧
    BackEnd.deleteHandler (.ok (BackEnd.deleteById db i).2) =
      ⟨200, .msg "Cliente deletado com sucesso"⟩ ∧
    BackEnd.deleteHandler (.ok (BackEnd.deleteById (BackEnd.deleteById db i).1 i).2) =
      ⟨404, .err "Cliente não encontrado"⟩ := by
  refine ⟨fun hr => by rw [hr]; rfl, fun hr => by rw [hr]; rfl,
    fun e hr => by rw [hr]; rfl, by rw [h]; rfl, ?_⟩
  have h2 : (BackEnd.deleteById (BackEnd.deleteById db i).1 i).2 = false := by
    simpa [BackEnd.deleteById] using deleteById_removes_id db i
  rw [h2]
  rfl

/-- Witness for C3 at a one-row store holding id 1. -/
theorem delete_response_contract_witness :
    BackEnd.deleteHandler (.ok (BackEnd.deleteById [⟨1, "Ana", 30, "SP"⟩] 1).2) =
      ⟨200, .msg "Cliente deletado com sucesso"⟩ :=
  (delete_response_contract (.ok true) [⟨1, "Ana", 30, "SP"⟩] 1 (by decide)).2.2.2.1

/-- C7: every endpoint maps a thrown storage error to status 500 with a
static message; per endpoint the message does not depend on the thrown
error's content, and the five messages are pairwise distinct. -/
theorem storage_error_responses (e e' : String) (body : ClienteInput) (i : Nat) :
    BackEnd.getRootHandler (.error e) = ⟨500, .err "Erro ao buscar clientes"⟩ ∧
    BackEnd.getByIdHandler (.error e) = ⟨500, .err "Erro ao buscar cliente"⟩ ∧
    BackEnd.postHandler body (.error e) = ⟨500, .err "Erro ao criar cliente"⟩ ∧
    BackEnd.putHandler body i (.error e) = ⟨500, .err "Erro ao atualizar cliente"⟩ ∧
    BackEnd.deleteHandler (.error e) = ⟨500, .err "Erro ao deletar cliente"⟩ ∧
    BackEnd.getRootHandler (.error e) = BackEnd.getRootHandler (.error e') ∧
    BackEnd.getByIdHandler (.error e) = BackEnd.getByIdHandler (.error e') ∧
    BackEnd.postHandler body (.error e) = BackEnd.postHandler body (.error e') ∧
    BackEnd.putHandler body i (.error e) = BackEnd.putHandler body i (.error e') ∧
    BackEnd.deleteHandler (.error e) = BackEnd.deleteHandler (.error e') ∧
    List.Nodup ["Erro ao buscar clientes", "Erro ao buscar cliente",
      "Erro ao criar cliente", "Erro ao atualizar cliente", "Erro ao deletar cliente"] :=
  ⟨rfl, rfl, rfl, rfl, rfl, rfl, rfl, rfl, rfl, rfl, by decide⟩

/-- C8: a POST whose storage insert succeeds is answered 201 with
`{"message":"Cliente criado com sucesso"}`, in particular for the body
`{"Nome":"Ana Silva","Idade":30,"UF":"SP"}`. -/
theorem post_created_response (body : ClienteInput) :
    BackEnd.postHandler body (.ok ()) = ⟨201, .msg "Cliente criado com sucesso"⟩ ∧
    BackEnd.postHandler ⟨"Ana Silva", 30, "SP"⟩ (.ok ()) =
      ⟨201, .msg "Cliente criado com sucesso"⟩ :=
  ⟨rfl, rfl⟩

/-- C10: a PUT whose id matches no stored row still answers 200 with the
success message when the storage call does not throw — the update handler has
no 404 branch (its status is never 404 for any storage result), and the
modelled storage update leaves the store unchanged when no id matches. -/
theorem put_no_not_found (db : List Cliente) (nome : String) (idade : Int) (uf : String)
    (i : Nat) (h : ∀ c ∈ db, c.id ≠ i) :
    BackEnd.putHandler ⟨nome, idade, uf⟩ i (.ok ()) =
      ⟨200, .msg "Cliente atualizado com sucesso"⟩ ∧
    (∀ r : Except String Unit, (BackEnd.putHandler ⟨nome, idade, uf⟩ i r).status ≠ 404) ∧
    BackEnd.updateCliente db nome idade uf i = db := by
  refine ⟨rfl, ?_, ?_⟩
  · intro r
    cases r <;> simp [BackEnd.putHandler]
  · unfold BackEnd.updateCliente
    have : db.map (fun c =>
        if c.id = i then { c with Nome := nome, Idade := idade, UF := uf } else c) = db.map id := by
      apply List.map_congr_left
      intro c hc
      simp [h c hc]
    simp only [List.map_id] at this
    exact this

/-- Witness for C10 on a store whose only row has id 1 while id 2 is
updated. -/
theorem put_no_not_found_witness :
    BackEnd.putHandler ⟨"Bia", 25, "RJ"⟩ 2 (.ok ()) =
      ⟨200, .msg "Cliente atualizado com sucesso"⟩ ∧
    BackEnd.updateCliente [⟨1, "Ana", 30, "SP"⟩] "Bia" 25 "RJ" 2 = [⟨1, "Ana", 30, "SP"⟩] :=
  ⟨(put_no_not_found [⟨1, "Ana", 30, "SP"⟩] "Bia" 25 "RJ" 2 (by decide)).1,
    (put_no_not_found [⟨1, "Ana", 30, "SP"⟩] "Bia" 25 "RJ" 2 (by decide)).2.2⟩


/-- C4: when client-side validation fails, neither submission handler issues
any network request (only the validation alert is shown) and the component
state is untouched. -/
theorem invalid_form_no_request (st : FrontEnd.AppState) (o : FrontEnd.FetchOutcome)
    (h : FrontEnd.validateForm st.formData = false) :
    (∀ e ∈ (FrontEnd.createCliente st o).2, e.isRequest = false) ∧
    (FrontEnd.createCliente st o).1 = st ∧
    (∀ e ∈ (FrontEnd.updateCliente st o).2, e.isRequest = false) ∧
    (FrontEnd.updateCliente st o).1 = st := by
  obtain ⟨m, hm⟩ : ∃ m, FrontEnd.validateFormResult st.formData = some m := by
    unfold FrontEnd.validateForm at h
    cases hr : FrontEnd.validateFormResult st.formData with
    | none => rw [hr] at h; simp at h
    | some m => exact ⟨m, rfl⟩
  refine ⟨?_, ?_, ?_, ?_⟩
  · simp [FrontEnd.createCliente, hm, FrontEnd.Eff.isRequest]
  · simp [FrontEnd.createCliente, hm]
  · cases hec : st.editingCliente with
    | none => simp [FrontEnd.updateCliente, hec]
    | some ec => simp [FrontEnd.updateCliente, hec, hm, FrontEnd.Eff.isRequest]
  · cases hec : st.editingCliente with
    | none => simp [FrontEnd.updateCliente, hec]
    | some ec => simp [FrontEnd.updateCliente, hec, hm]

/-- Witness for C4 at a form whose UF has three characters. -/
theorem invalid_form_no_request_witness :
    (FrontEnd.createCliente ⟨[], false, false, none, none, ⟨"Ana", "30", "SPP"⟩⟩ .timeout).1 =
      ⟨[], false, false, none, none, ⟨"Ana", "30", "SPP"⟩⟩ :=
  (invalid_form_no_request ⟨[], false, false, none, none, ⟨"Ana", "30", "SPP"⟩⟩
    .timeout (by decide)).2.1

/-- C5: on a validated submission, a 2xx response clears the form and
triggers a re-fetch, while a non-2xx response or a thrown error shows the
generic failure alert and leaves the state (the form included) unchanged —
for both the create and the update handler. -/
theorem submit_outcome_contract (st : FrontEnd.AppState) (status : Nat)
    (d : Option (List Cliente)) (m : String) (ec : Cliente)
    (hv : FrontEnd.validateForm st.formData = true)
    (he : st.editingCliente = some ec) :
    (FrontEnd.statusOk status = true →
      (FrontEnd.createCliente st (.ok status d)).1.formData = FrontEnd.clearedForm ∧
      FrontEnd.Eff.refetch ∈ (FrontEnd.createCliente st (.ok status d)).2 ∧
      (FrontEnd.updateCliente st (.ok status d)).1.formData = FrontEnd.clearedForm ∧
      FrontEnd.Eff.refetch ∈ (FrontEnd.updateCliente st (.ok status d)).2) ∧
    (FrontEnd.statusOk status = false →
      (FrontEnd.createCliente st (.ok status d)).1 = st ∧
      FrontEnd.Eff.alert "Erro" "Não foi possível criar o cliente" ∈
        (FrontEnd.createCliente st (.ok status d)).2 ∧
      (FrontEnd.updateCliente st (.ok status d)).1 = st ∧
      FrontEnd.Eff.alert "Erro" "Não foi possível atualizar o cliente" ∈
        (FrontEnd.updateCliente st (.ok status d)).2) ∧
    ((FrontEnd.createCliente st (.failure m)).1 = st ∧
      FrontEnd.Eff.alert "Erro" "Erro de conexão. Verifique se a API está funcionando." ∈
        (FrontEnd.createCliente st (.failure m)).2 ∧
      (FrontEnd.updateCliente st (.failure m)).1 = st ∧
      FrontEnd.Eff.alert "Erro" "Erro de conexão. Verifique se a API está funcionando." ∈
        (FrontEnd.updateCliente st (.failure m)).2) := by
  have hvr : FrontEnd.validateFormResult st.formData = none := by
    unfold FrontEnd.validateForm at hv
    exact Option.isNone_iff_eq_none.mp hv
  refine ⟨fun hs => ?_, fun hs => ?_, ?_⟩
  · refine ⟨?_, ?_, ?_, ?_⟩ <;>
      simp [FrontEnd.createCliente, FrontEnd.updateCliente, hvr, he, hs,
        FrontEnd.resetForm]
  · refine ⟨?_, ?_, ?_, ?_⟩ <;>
      simp [FrontEnd.createCliente, FrontEnd.updateCliente, hvr, he, hs]
  · refine ⟨?_, ?_, ?_, ?_⟩ <;>
      simp [FrontEnd.createCliente, FrontEnd.updateCliente, hvr, he]

/-- Witness for C5 at a valid form with an edited record, a 201 status and a
failure message. -/
theorem submit_outcome_contract_witness :
    (FrontEnd.createCliente
      ⟨[], true, false, some ⟨1, "Ana", 30, "SP"⟩, none, ⟨"Ana", "30", "SP"⟩⟩
      (.ok 201 none)).1.formData = FrontEnd.clearedForm :=
  ((submit_outcome_contract
    ⟨[], true, false, some ⟨1, "Ana", 30, "SP"⟩, none, ⟨"Ana", "30", "SP"⟩⟩
    201 none "boom" ⟨1, "Ana", 30, "SP"⟩ (by decide) rfl).1 (by decide)).1

/-- C6: every run of `deleteCliente` that sends the DELETE request — whatever
the outcome: 2xx, non-2xx, abort, other error — ends with the confirmation
modal hidden and the pending-deletion reference reset to `none`. -/
theorem delete_always_closes_modal (st : FrontEnd.AppState) (dc : Cliente)
    (o : FrontEnd.FetchOutcome) (h : st.deletingCliente = some dc) :
    FrontEnd.Eff.httpRequest "DELETE" ("/clientes/" ++ toString dc.id) 8000 ∈
      (FrontEnd.deleteCliente st o).2 ∧
    (FrontEnd.deleteCliente st o).1.deletingCliente = none ∧
    (FrontEnd.deleteCliente st o).1.deleteModalVisible = false := by
  cases o with
  | ok status d =>
    by_cases hs : FrontEnd.statusOk status = true <;>
      simp [FrontEnd.deleteCliente, h, hs, FrontEnd.closeDeleteModal]
  | timeout => simp [FrontEnd.deleteCliente, h, FrontEnd.closeDeleteModal]
  | failure m => simp [FrontEnd.deleteCliente, h, FrontEnd.closeDeleteModal]

/-- Witness for C6 at a timeout outcome. -/
theorem delete_always_closes_modal_witness :
    (FrontEnd.deleteCliente
      ⟨[], false, true, none, some ⟨1, "Ana", 30, "SP"⟩, ⟨"", "", ""⟩⟩
      .timeout).1.deleteModalVisible = false :=
  (delete_always_closes_modal
    ⟨[], false, true, none, some ⟨1, "Ana", 30, "SP"⟩, ⟨"", "", ""⟩⟩
    ⟨1, "Ana", 30, "SP"⟩ .timeout rfl).2.2

/-- C9: the list fetch always goes out with a 10000 ms timeout and the delete
request with its own 8000 ms timeout; in both flows the timeout alert differs
from every alert used for other network-level failures. -/
theorem timeout_configuration (st : FrontEnd.AppState) (dc : Cliente)
    (o : FrontEnd.FetchOutcome) (m : String) (h : st.deletingCliente = some dc) :
    FrontEnd.Eff.httpRequest "GET" "/" 10000 ∈ (FrontEnd.fetchClientes st o).2 ∧
    FrontEnd.Eff.httpRequest "DELETE" ("/clientes/" ++ toString dc.id) 8000 ∈
      (FrontEnd.deleteCliente st o).2 ∧
    FrontEnd.Eff.alert "Erro" "Timeout: Verifique se a API está rodando e o IP está correto." ∈
      (FrontEnd.fetchClientes st .timeout).2 ∧
    FrontEnd.Eff.alert "Erro de Conexão" "Não foi possível conectar com a API." ∈
      (FrontEnd.fetchClientes st (.failure "Network request failed")).2 ∧
    ("Timeout: Verifique se a API está rodando e o IP está correto." ≠
      "Não foi possível conectar com a API.") ∧
    (∀ m', ("Timeout: Verifique se a API está rodando e o IP está correto." : String) ≠
      "Falha na conexão: " ++ m') ∧
    FrontEnd.Eff.alert "Timeout" "A operação demorou muito para responder." ∈
      (FrontEnd.deleteCliente st .timeout).2 ∧
    FrontEnd.Eff.alert "Erro" "Erro de conexão. Verifique se a API está funcionando." ∈
      (FrontEnd.deleteCliente st (.failure m)).2 ∧
    ("A operação demorou muito para responder." ≠
      "Erro de conexão. Verifique se a API está funcionando.") := by
  refine ⟨?_, ?_, ?_, ?_, by decide, ?_, ?_, ?_, by decide⟩
  · cases o with
    | ok status d =>
      by_cases hs : FrontEnd.statusOk status = true <;>
        simp [FrontEnd.fetchClientes, hs]
    | timeout => simp [FrontEnd.fetchClientes]
    | failure m' =>
      by_cases hn : FrontEnd.strIncludes m' "Network request failed" = true <;>
        simp [FrontEnd.fetchClientes, hn]
  · cases o with
    | ok status d =>
      by_cases hs : FrontEnd.statusOk status = true <;>
        simp [FrontEnd.deleteCliente, h, hs]
    | timeout => simp [FrontEnd.deleteCliente, h]
    | failure m' => simp [FrontEnd.deleteCliente, h]
  · simp [FrontEnd.fetchClientes]
  · have : FrontEnd.strIncludes "Network request failed" "Network request failed" = true := by
      decide
    simp [FrontEnd.fetchClientes, this]
  · intro m' hcontra
    have hd := congrArg String.data hcontra
    rw [String.data_append] at hd
    simp at hd
  · simp [FrontEnd.deleteCliente, h]
  · simp [FrontEnd.deleteCliente, h]

/-- Witness for C9 at a concrete state pending deletion of id 1. -/
theorem timeout_configuration_witness :
    FrontEnd.Eff.httpRequest "DELETE" "/clientes/1" 8000 ∈
      (FrontEnd.deleteCliente
        ⟨[], false, true, none, some ⟨1, "Ana", 30, "SP"⟩, ⟨"", "", ""⟩⟩ .timeout).2 :=
  (timeout_configuration
    ⟨[], false, true, none, some ⟨1, "Ana", 30, "SP"⟩, ⟨"", "", ""⟩⟩
    ⟨1, "Ana", 30, "SP"⟩ .timeout "x" rfl).2.1

/-- A character that is not a decimal digit is not a digit in radix 10. -/
theorem digitVal_ten_eq_none (c : Char) (h : ¬('0' ≤ c ∧ c ≤ '9')) :
    FrontEnd.digitVal? 10 c = none := by
  unfold FrontEnd.digitVal?
  rw [if_neg h]
  by_cases hb : 'a' ≤ c ∧ c ≤ 'z'
  · rw [if_pos hb, if_neg (by omega)]
  · rw [if_neg hb]
    by_cases hc : 'A' ≤ c ∧ c ≤ 'Z'
    · rw [if_pos hc, if_neg (by omega)]
    · rw [if_neg hc]

/-- With no digit consumed yet, a non-digit head stops `parseDigits` at
`none`. -/
theorem parseDigits_eq_none (radix : Nat) (l : List Char)
    (h : ∀ c ∈ l.head?, FrontEnd.digitVal? radix c = none) :
    FrontEnd.parseDigits radix l none = none := by
  cases l with
  | nil => rfl
  | cons c cs => simp [FrontEnd.parseDigits, h c (by simp)]

/-- Stripping a sign only removes characters. -/
theorem stripSign_mem (cs : List Char) : ∀ c ∈ (FrontEnd.stripSign cs).2, c ∈ cs := by
  unfold FrontEnd.stripSign
  split <;> intro c hc <;> simp_all

/-- Without a leading `'0'` there is no hex mark: the radix is 10. -/
theorem stripHexMark_of_no_zero (cs : List Char) (h : '0' ∉ cs) :
    FrontEnd.stripHexMark cs = (10, cs) := by
  unfold FrontEnd.stripHexMark
  split <;> simp_all

/-- `jsParseInt` with its pair destructuring written through projections. -/
theorem jsParseInt_eq (s : String) :
    FrontEnd.jsParseInt s =
      match FrontEnd.parseDigits
          (FrontEnd.stripHexMark (FrontEnd.stripSign (s.data.dropWhile Char.isWhitespace)).2).1
          (FrontEnd.stripHexMark (FrontEnd.stripSign (s.data.dropWhile Char.isWhitespace)).2).2
          none with
      | none => none
      | some n => some ((FrontEnd.stripSign (s.data.dropWhile Char.isWhitespace)).1 * n) := rfl

/-- A string containing no decimal digit at all parses to `NaN`. -/
theorem jsParseInt_eq_none_of_no_digit (s : String)
    (h : ∀ c ∈ s.data, ¬('0' ≤ c ∧ c ≤ '9')) :
    FrontEnd.jsParseInt s = none := by
  have hss : ∀ c ∈ (FrontEnd.stripSign (s.data.dropWhile Char.isWhitespace)).2,
      ¬('0' ≤ c ∧ c ≤ '9') := by
    intro c hc
    exact h c ((List.dropWhile_sublist Char.isWhitespace).subset (stripSign_mem _ c hc))
  have h0 : '0' ∉ (FrontEnd.stripSign (s.data.dropWhile Char.isWhitespace)).2 := by
    intro hm
    exact hss '0' hm ⟨le_refl _, by decide⟩
  have hpd : FrontEnd.parseDigits 10
      (FrontEnd.stripSign (s.data.dropWhile Char.isWhitespace)).2 none = none := by
    apply parseDigits_eq_none
    intro c hc
    apply digitVal_ten_eq_none
    apply hss
    cases hl : (FrontEnd.stripSign (s.data.dropWhile Char.isWhitespace)).2 with
    | nil => rw [hl] at hc; simp at hc
    | cons a as =>
      rw [hl] at hc
      simp at hc
      simp [hl, hc]
  rw [jsParseInt_eq, stripHexMark_of_no_zero _ h0]
  simp [hpd]

/-- `validateForm` accepts exactly when: the trimmed name is non-blank, the
age passes `validateIdade`, the trimmed UF is non-blank and the untrimmed UF
has length 2. -/
theorem validateForm_decomp (f : FrontEnd.FormData) :
    FrontEnd.validateForm f = true ↔
      (FrontEnd.jsTrim f.Nome ≠ "" ∧ FrontEnd.validateIdade f.Idade = true ∧
       FrontEnd.jsTrim f.UF ≠ "" ∧ f.UF.length = 2) := by
  by_cases h1 : FrontEnd.jsTrim f.Nome = ""
  · simp [FrontEnd.validateForm, FrontEnd.validateFormResult, h1]
  · by_cases h2 : FrontEnd.jsTrim f.Idade = ""
    · simp [FrontEnd.validateForm, FrontEnd.validateFormResult, FrontEnd.validateIdade, h1, h2]
    · cases hp : FrontEnd.jsParseInt f.Idade with
      | none =>
        simp [FrontEnd.validateForm, FrontEnd.validateFormResult, FrontEnd.validateIdade,
          h1, h2, hp]
      | some idade =>
        by_cases h3 : idade < 0 ∨ idade > 150
        · simp [FrontEnd.validateForm, FrontEnd.validateFormResult, FrontEnd.validateIdade,
            h1, h2, hp, h3]
        · by_cases h4 : FrontEnd.jsTrim f.UF = ""
          · simp [FrontEnd.validateForm, FrontEnd.validateFormResult, FrontEnd.validateIdade,
              h1, h2, hp, h3, h4]
          · by_cases h5 : f.UF.length = 2
            · simp [FrontEnd.validateForm, FrontEnd.validateFormResult, FrontEnd.validateIdade,
                h1, h2, hp, h3, h4, h5]
            · simp [FrontEnd.validateForm, FrontEnd.validateFormResult, FrontEnd.validateIdade,
                h1, h2, hp, h3, h4, h5]

/-- ASCII code points have no special casing and map one-to-one. -/
theorem jsCharToUpper_ascii_length (c : Char) (h : c.toNat ≤ 127) :
    (FrontEnd.jsCharToUpper c).length = 1 := by
  unfold FrontEnd.jsCharToUpper
  rw [if_pos h]
  by_cases h2 : 0x61 ≤ c.toNat ∧ c.toNat ≤ 0x7A <;> simp [h2]

/-- Uppercasing an all-ASCII character list preserves its length. -/
theorem jsCharToUpper_flatMap_ascii_length (l : List Char) (h : ∀ c ∈ l, c.toNat ≤ 127) :
    (l.flatMap FrontEnd.jsCharToUpper).length = l.length := by
  induction l with
  | nil => rfl
  | cons c cs ih =>
    rw [List.flatMap_cons, List.length_append, jsCharToUpper_ascii_length c (h c (by simp)),
      ih (fun d hd => h d (by simp [hd])), List.length_cons]
    omega

/-- C1 (amended): for every form state accepted by `validateForm`, the UF
value submitted by a create or update request is the field value trimmed and
upper-cased (Unicode full case conversion), but the length-2 check is applied
to the untrimmed field value: the untrimmed field has exactly 2 characters,
while the submitted value may be shorter (trimming) or longer (an expanding
case mapping such as `ß → SS`) and need not consist of letters; only when the
trimmed field is ASCII does the submitted value have at most 2 characters. -/
theorem accepted_form_uf_contract (f : FrontEnd.FormData)
    (h : FrontEnd.validateForm f = true) :
    f.UF.length = 2 ∧ FrontEnd.jsTrim f.UF ≠ "" ∧
    (FrontEnd.submittedBody f).UF = FrontEnd.jsToUpperCase (FrontEnd.jsTrim f.UF) ∧
    ((∀ c ∈ (FrontEnd.jsTrim f.UF).data, c.toNat ≤ 127) →
      (FrontEnd.submittedBody f).UF.length ≤ 2) := by
  obtain ⟨h1, h2, h3, h4⟩ := (validateForm_decomp f).mp h
  refine ⟨h4, h3, rfl, fun ha => ?_⟩
  have hup : (FrontEnd.submittedBody f).UF.length = (FrontEnd.jsTrim f.UF).length := by
    show ((FrontEnd.jsTrim f.UF).data.flatMap FrontEnd.jsCharToUpper).length
      = (FrontEnd.jsTrim f.UF).data.length
    exact jsCharToUpper_flatMap_ascii_length _ ha
  have htr : (FrontEnd.jsTrim f.UF).length ≤ f.UF.length := by
    show (((f.UF.data.dropWhile Char.isWhitespace).reverse.dropWhile
      Char.isWhitespace).reverse).length ≤ f.UF.data.length
    rw [List.length_reverse]
    calc ((f.UF.data.dropWhile Char.isWhitespace).reverse.dropWhile Char.isWhitespace).length
        ≤ (f.UF.data.dropWhile Char.isWhitespace).reverse.length :=
          (List.dropWhile_sublist _).length_le
      _ = (f.UF.data.dropWhile Char.isWhitespace).length := List.length_reverse _
      _ ≤ f.UF.data.length := (List.dropWhile_sublist _).length_le
  omega

/-- Witness for C1 (amended) at the form `⟨"Ana", "30", "SP"⟩`. -/
theorem accepted_form_uf_contract_witness :
    (FrontEnd.submittedBody ⟨"Ana", "30", "SP"⟩).UF.length ≤ 2 :=
  (accepted_form_uf_contract ⟨"Ana", "30", "SP"⟩ (by decide)).2.2.2 (by decide)

/-- C1 counterexample: the accepted form `⟨"X", "5", "A "⟩` submits a
1-character UF, the accepted form `⟨"X", "5", "12"⟩` submits a UF made of
digits, and the accepted form `⟨"X", "5", "ßß"⟩` submits the 4-character
"SSSS". -/
theorem accepted_form_uf_contract_cex :
    FrontEnd.validateForm ⟨"X", "5", "A "⟩ = true ∧
    (FrontEnd.submittedBody ⟨"X", "5", "A "⟩).UF.length ≠ 2 ∧
    FrontEnd.validateForm ⟨"X", "5", "12"⟩ = true ∧
    ((FrontEnd.submittedBody ⟨"X", "5", "12"⟩).UF.data.all FrontEnd.isUpperAlpha) = false ∧
    FrontEnd.validateForm ⟨"X", "5", "ßß"⟩ = true ∧
    (FrontEnd.submittedBody ⟨"X", "5", "ßß"⟩).UF = "SSSS" ∧
    (FrontEnd.submittedBody ⟨"X", "5", "ßß"⟩).UF.length = 4 := by
  decide

/-- C2 (amended): the client-side age validation accepts "0" and "150",
rejects "-1" and "151", and rejects every string containing no decimal digit
at all; but because it uses JS `parseInt`, which reads the longest numeric
prefix, it also accepts strings such as "12abc" that do not parse to an
integer as a whole.  The age check is exactly the age portion of the
`validateForm` gate. -/
theorem age_validation_boundaries (s : String)
    (hnd : ∀ c ∈ s.data, ¬('0' ≤ c ∧ c ≤ '9')) :
    FrontEnd.validateIdade "0" = true ∧ FrontEnd.validateIdade "150" = true ∧
    FrontEnd.validateIdade "-1" = false ∧ FrontEnd.validateIdade "151" = false ∧
    FrontEnd.validateIdade "12abc" = true ∧
    FrontEnd.validateIdade s = false ∧
    (∀ f, FrontEnd.validateForm f = true → FrontEnd.validateIdade f.Idade = true) := by
  refine ⟨by decide, by decide, by decide, by decide, by decide, ?_, ?_⟩
  · unfold FrontEnd.validateIdade
    rw [jsParseInt_eq_none_of_no_digit s hnd]
    split <;> rfl
  · intro f hf
    exact ((validateForm_decomp f).mp hf).2.1

/-- Witness for C2 (amended) at the digit-free string "abc". -/
theorem age_validation_boundaries_witness :
    FrontEnd.validateIdade "abc" = false :=
  (age_validation_boundaries "abc" (by decide)).2.2.2.2.2.1

/-- C2 counterexample: "12abc" is accepted by the code's age validation yet
does not parse, as a whole, to an integer in [0, 150] (the spec's reading,
`specAgeAccepts`). -/
theorem age_validation_cex :
    FrontEnd.validateIdade "12abc" = true ∧ FrontEnd.specAgeAccepts "12abc" = false := by
  decide
